import Mathlib

/-!
Shallow embedding of `lib/ReadsAlignmentUtils/core/sam_tools.py`.

Strings are modelled as Lean `String` (a wrapper around `List Char`); the
small regular expressions of the source are translated into explicit
character-list scanners with the exact semantics used by the source
(`re.match` anchored at the start, `re.search` returning the first match).
Python floats are modelled as exact rationals `ℚ`; Python exceptions are
modelled with `Except`.  The filesystem, the PATH lookup and the behaviour
of the spawned subprocesses are abstracted into an `Env` record, and each
public operation additionally returns the list of external-effect events
(tool-availability check, process launches) it performed, in order.
-/

set_option autoImplicit false

deriving instance DecidableEq for Except

namespace SamTools

/-- Python `s.startswith('/')`. -/
def startsWithSlash (s : String) : Bool :=
  match s.data with
  | '/' :: _ => true
  | _ => false

/-- Whether a character list ends with `'/'` (used by `os.path.join`). -/
def endsWithSlashL : List Char → Bool
  | [] => false
  | [c] => c == '/'
  | _ :: rest => endsWithSlashL rest

/-- `os.path.join a b` for POSIX paths, as used by the source: if `b` is
absolute the result is `b`; otherwise `b` is appended to `a` with a single
separating slash. -/
def osPathJoin (a b : String) : String :=
  if startsWithSlash b then b
  else if a.data.isEmpty then b
  else if endsWithSlashL a.data then a ++ b
  else a ++ "/" ++ b

/-- Python `s[-4:]` (the last four characters; the whole string when it is
shorter). -/
def pyLast4 (s : String) : String :=
  String.mk (s.data.drop (s.data.length - 4))

/-- Python `s[:-4]` (the string without its last four characters). -/
def pyDropLast4 (s : String) : String :=
  String.mk (s.data.take (s.data.length - 4))

/-- The default output file name computed by `_prepare_paths` when `ofile`
is `None`: `ifile[:-4] + oext` when `ifile[-4:] == iext`, else
`ifile + oext` (extension appended). -/
def defaultOName (ifile iext oext : String) : String :=
  if pyLast4 ifile = iext then pyDropLast4 ifile ++ oext else ifile ++ oext

/-- The error kinds raised by the embedded code.  `invalidArgument` stands
for the `Exception`s raised on bad path arguments, `fileNotFound` for the
`RuntimeError` raised on a missing input file, `toolNotFound` for the
`RuntimeError` of `_check_prog`, and `indexError` / `attributeError` for
the Python exceptions raised by `lines[i]` on a short list and by
`None.group(...)` / `None.error(...)` respectively. -/
inductive Err where
  | invalidArgument (msg : String)
  | fileNotFound (path : String)
  | toolNotFound
  | indexError
  | attributeError
  deriving DecidableEq, Repr

/-- `SamTools._prepare_paths`: validates `ipath` / `opath`, defaults
`opath` to `ipath` and `ofile` to the rewritten input name, and joins the
directories with the file names.  Returns `(ifile, ofile, opath)`. -/
def prepare_paths (ifile : String) (ipath ofile opath : Option String)
    (iext oext : String) : Except Err (String × String × String) :=
  match ipath with
  | none => .error (.invalidArgument "input path cannot be none")
  | some ip =>
    match opath with
    | some op =>
      if startsWithSlash op then
        let ofileV := match ofile with
          | some o => o
          | none => defaultOName ifile iext oext
        .ok (osPathJoin ip ifile, osPathJoin op ofileV, op)
      else
        .error (.invalidArgument op)
    | none =>
      let ofileV := match ofile with
        | some o => o
        | none => defaultOName ifile iext oext
      .ok (osPathJoin ip ifile, osPathJoin ip ofileV, ip)

/-- Severity of a log record (`logging` levels used by the source). -/
inductive Severity where
  | info
  | warning
  | error
  deriving DecidableEq, Repr

/-- One record sent to the logger. -/
structure LogEvent where
  severity : Severity
  msg : String
  deriving DecidableEq, Repr

/-- Python `str.splitlines` restricted to `'\n'`-separated text: each
newline terminates a line, and trailing text after the last newline forms
a final line only when it is non-empty. -/
def splitNl : List Char → List (List Char)
  | [] => [[]]
  | c :: rest =>
    if c = '\n' then [] :: splitNl rest
    else
      match splitNl rest with
      | [] => [[c]]
      | l :: ls => (c :: l) :: ls

/-- See `splitNl`; `"".splitlines() == []`. -/
def splitlines (s : String) : List String :=
  match s.data with
  | [] => []
  | cs =>
    let ps := splitNl cs
    let ps2 := if ps.getLast? = some [] then ps.dropLast else ps
    ps2.map String.mk

/-- Numeric value of a list of decimal digits (Python `int(...)` on the
digits captured by `(\d+)`). -/
def digitsVal (ds : List Char) : Nat :=
  ds.foldl (fun a c => a * 10 + (c.toNat - 48)) 0

/-- The regex `^(\d+) \+ (\d+)` applied with `re.match` (anchored at the
start of the line): returns the two captured integers, or `none` when the
line does not begin with the `A + B` pattern. -/
def twoNumsMatch (line : String) : Option (Nat × Nat) :=
  let cs := line.data
  let d1 := cs.takeWhile Char.isDigit
  if d1.isEmpty then none
  else
    match cs.drop d1.length with
    | ' ' :: '+' :: ' ' :: rest =>
      let d2 := rest.takeWhile Char.isDigit
      if d2.isEmpty then none else some (digitsVal d1, digitsVal d2)
    | _ => none

/-- `lines[i]` followed by `two_nums.match(...)` and `m.group(..)`:
fails with `indexError` when the line is missing and with
`attributeError` when the line does not match the `A + B` pattern. -/
def getMatched (lines : List String) (i : Nat) : Except Err (Nat × Nat) :=
  match lines.get? i with
  | none => .error .indexError
  | some l =>
    match twoNumsMatch l with
    | none => .error .attributeError
    | some p => .ok p

/-- Whether line `i` exists and begins with the `A + B` pattern. -/
def lineOk (lines : List String) (i : Nat) : Bool :=
  match getMatched lines i with
  | .ok _ => true
  | .error _ => false

/-- The message logged by `_extractAlignmentStatsInfo` when the total read
count is zero (apostrophe dropped; the `aligment` typo is the source's). -/
def zeroRateMsg : String :=
  "alignment stats dont look right. total_qcpr + total_qcfr = 0. setting aligment_rate = 0."

/-- The alignment-rate computation of `_extractAlignmentStatsInfo`: when
`total = 0` the source calls `self.logger.error(...)` — which raises
`AttributeError` when no logger was attached (`logger=None`, the
constructor default) — and sets the rate to `0`; otherwise the rate is
`mapped / total * 100`, clamped to `100`. -/
def rateCalc (logger : Option Unit) (total mapped : Nat) :
    Except Err (ℚ × List LogEvent) :=
  if total = 0 then
    match logger with
    | none => .error .attributeError
    | some _ => .ok (0, [⟨Severity.error, zeroRateMsg⟩])
  else
    let r : ℚ := (mapped : ℚ) / (total : ℚ) * 100
    .ok (if 100 < r then 100 else r, [])

/-- The structured statistics returned by `_extractAlignmentStatsInfo`. -/
structure Stats where
  alignment_rate : ℚ
  multiple_alignments : Nat
  properly_paired : Nat
  singletons : Nat
  total_reads : Nat
  unmapped_reads : Int
  mapped_reads : Nat
  deriving DecidableEq, Repr

/-- `SamTools._extractAlignmentStatsInfo`: reads lines 0, 4, 10 and 8 of
the flagstat report (in the source's evaluation order), in each case
matching the leading `A + B` pattern, and assembles the stats record
together with the log records it emitted. -/
def extractAlignmentStatsInfo (logger : Option Unit) (stats : String) :
    Except Err (Stats × List LogEvent) :=
  let lines := splitlines stats
  match getMatched lines 0 with
  | .error e => .error e
  | .ok (a0, b0) =>
    match getMatched lines 4 with
    | .error e => .error e
    | .ok (a4, _b4) =>
      match rateCalc logger (a0 + b0) a4 with
      | .error e => .error e
      | .ok (rate, logs) =>
        match getMatched lines 10 with
        | .error e => .error e
        | .ok (a10, _b10) =>
          match getMatched lines 8 with
          | .error e => .error e
          | .ok (a8, _b8) =>
            .ok ({ alignment_rate := rate
                   multiple_alignments := 0
                   properly_paired := a8
                   singletons := a10
                   total_reads := a0 + b0
                   unmapped_reads := ((a0 + b0 : Nat) : Int) - (a4 : Int)
                   mapped_reads := a4 }, logs)

/-- `true` on `.ok`, `false` on `.error`. -/
def resultIsError {α : Type} (r : Except Err α) : Bool :=
  match r with
  | .error _ => true
  | .ok _ => false

/-- The severities of the log records emitted by a successful parse. -/
def loggedSeverities (r : Except Err (Stats × List LogEvent)) : List Severity :=
  match r with
  | .ok (_, logs) => logs.map LogEvent.severity
  | .error _ => []

/-- Python `\w` (restricted to ASCII, which covers every token the
validator emits). -/
def isWordChar (c : Char) : Bool :=
  c.isAlphanum || c = '_'

/-- One attempt of the regex `(?<=ERROR:)\w+` at the current position:
when the text starts with `ERROR:` followed by at least one word
character, the maximal word-character run after the colon. -/
def errTokenAt (l : List Char) : Option (List Char) :=
  match l with
  | 'E' :: 'R' :: 'R' :: 'O' :: 'R' :: ':' :: after =>
    let tok := after.takeWhile isWordChar
    if tok.isEmpty then none else some tok
  | _ => none

/-- `re.search('(?<=ERROR:)\w+', line)`: the first match in the line. -/
def findErrorToken : List Char → Option (List Char)
  | [] => none
  | c :: rest =>
    match errTokenAt (c :: rest) with
    | some tok => some tok
    | none => findErrorToken rest

/-- Whether the line contains *any* occurrence of `ERROR:` immediately
followed by a word token outside `ig` (not just the first occurrence).
This follows the spec's words and is used to compare the specified
classifier with the implemented one. -/
def lineHasBadToken (ig : List String) : List Char → Bool
  | [] => false
  | c :: rest =>
    (match errTokenAt (c :: rest) with
     | some tok => !ig.contains (String.mk tok)
     | none => false) || lineHasBadToken ig rest

/-- The generic failure marker searched for in the whole report. -/
def exceptionMarker : String := "Exception"

/-- Whether `needle` is a prefix of the second list. -/
def isPrefixL : List Char → List Char → Bool
  | [], _ => true
  | _ :: _, [] => false
  | a :: as, b :: bs => a == b && isPrefixL as bs

/-- Python's substring test `needle in hay`. -/
def containsSub (needle : List Char) : List Char → Bool
  | [] => isPrefixL needle []
  | c :: rest => isPrefixL needle (c :: rest) || containsSub needle rest

/-- The per-line check of `_is_valid`: the line is acceptable when it has
no `ERROR:<token>` match, or its first match is in the ignore list. -/
def lineCheck (ig : List String) (line : String) : Bool :=
  match findErrorToken line.data with
  | none => true
  | some tok => ig.contains (String.mk tok)

/-- The ignore list shared by the default arguments of the public
operations. -/
def defaultIgnore : List String :=
  ["MATE_NOT_FOUND", "MISSING_READ_GROUP", "INVALID_MAPPING_QUALITY"]

/-- `SamTools._is_valid`: `True` on a `None` report; `ignore=None` is
replaced by the sentinel list `['xxx']`; a report containing
`'Exception'` anywhere is invalid; otherwise every line must pass
`lineCheck`. -/
def is_valid (result : Option String) (ignore : Option (List String)) : Bool :=
  match result with
  | none => true
  | some res =>
    let ig := match ignore with
      | none => ["xxx"]
      | some l => l
    if containsSub exceptionMarker.data res.data then false
    else (splitlines res).all (lineCheck ig)

/-- The externally visible effects of an operation, in order. -/
inductive Event where
  | toolCheck
  | procLaunch (cmd : String)
  deriving DecidableEq, Repr

/-- The abstracted execution environment: the set of existing files, the
PATH lookup outcome for `samtools`, whether the subprocess invocation
inside the operation's `try` block raises, and the text the validator
writes to stdout. -/
structure Env where
  fs : List String
  samtoolsAvailable : Bool
  subprocRaises : Bool
  validatorOutput : String

def sortCmd (ofile : String) : String :=
  "samtools sort -l 9 -O BAM > " ++ ofile

def viewBSCmd (ifile : String) : String :=
  "samtools view -bS " ++ ifile

def viewHCmd (ifile ofile : String) : String :=
  "samtools view -h " ++ ifile ++ " > " ++ ofile

def indexCmd (ifile ofile : String) : String :=
  "samtools index " ++ ifile ++ " " ++ ofile

def picardCmd (f : String) : String :=
  "java -jar /opt/picard/build/libs/picard.jar ValidateSamFile I=" ++ f
    ++ " MODE=SUMMARY"

/-- `SamTools.validate`: requires an absolute `ipath`, joins the paths,
requires the input to exist, runs the validator and classifies its
output; an exception from the subprocess is caught and turns into status
`1`. -/
def validate (env : Env) (ifile ipath : String)
    (ignore : Option (List String)) : Except Err Nat × List Event :=
  if startsWithSlash ipath then
    let f := osPathJoin ipath ifile
    if env.fs.contains f then
      if env.subprocRaises then
        (.ok 1, [Event.procLaunch (picardCmd f)])
      else if is_valid (some env.validatorOutput) ignore then
        (.ok 0, [Event.procLaunch (picardCmd f)])
      else
        (.ok 1, [Event.procLaunch (picardCmd f)])
    else
      (.error (.fileNotFound f), [])
  else
    (.error (.invalidArgument ipath), [])

/-- `SamTools.convert_sam_to_sorted_bam`: prepares paths with the
extension pair `('.sam', '.bam')`, requires the input to exist,
optionally pre-validates, checks for `samtools`, and runs the two-stage
`view -bS | sort` pipeline; exceptions from the pipeline are caught and
logged and the operation still returns `0`. -/
def convert_sam_to_sorted_bam (env : Env) (ifile : String)
    (ipath ofile opath : Option String) (validateFlag : Bool)
    (ignore : Option (List String)) : Except Err Nat × List Event :=
  match prepare_paths ifile ipath ofile opath ".sam" ".bam" with
  | .error e => (.error e, [])
  | .ok (fi, fo, _op) =>
    if env.fs.contains fi then
      let run : List Event → Except Err Nat × List Event := fun t =>
        if env.samtoolsAvailable then
          (.ok 0, t ++ [Event.toolCheck, Event.procLaunch (sortCmd fo),
                        Event.procLaunch (viewBSCmd fi)])
        else
          (.error .toolNotFound, t ++ [Event.toolCheck])
      if validateFlag then
        match validate env fi (ipath.getD "") ignore with
        | (.error e, t) => (.error e, t)
        | (.ok v, t) => if v = 1 then (.ok 1, t) else run t
      else run []
    else
      (.error (.fileNotFound fi), [])

/-- `SamTools.convert_bam_to_sam`: same template with a single
`view -h` stage.  Note that the source passes the extension pair
`('.sam', '.bam')` to `_prepare_paths` (line 199), not
`('.bam', '.sam')`. -/
def convert_bam_to_sam (env : Env) (ifile : String)
    (ipath ofile opath : Option String) (validateFlag : Bool)
    (ignore : Option (List String)) : Except Err Nat × List Event :=
  match prepare_paths ifile ipath ofile opath ".sam" ".bam" with
  | .error e => (.error e, [])
  | .ok (fi, fo, _op) =>
    if env.fs.contains fi then
      let run : List Event → Except Err Nat × List Event := fun t =>
        if env.samtoolsAvailable then
          (.ok 0, t ++ [Event.toolCheck, Event.procLaunch (viewHCmd fi fo)])
        else
          (.error .toolNotFound, t ++ [Event.toolCheck])
      if validateFlag then
        match validate env fi (ipath.getD "") ignore with
        | (.error e, t) => (.error e, t)
        | (.ok v, t) => if v = 1 then (.ok 1, t) else run t
      else run []
    else
      (.error (.fileNotFound fi), [])

/-- `SamTools.create_bai_from_bam`: same template with extension pair
`('.bam', '.bai')` and a single `index` stage; unlike the conversions,
an exception from the subprocess makes the operation return `1`. -/
def create_bai_from_bam (env : Env) (ifile : String)
    (ipath ofile opath : Option String) (validateFlag : Bool)
    (ignore : Option (List String)) : Except Err Nat × List Event :=
  match prepare_paths ifile ipath ofile opath ".bam" ".bai" with
  | .error e => (.error e, [])
  | .ok (fi, fo, _op) =>
    if env.fs.contains fi then
      let run : List Event → Except Err Nat × List Event := fun t =>
        if env.samtoolsAvailable then
          if env.subprocRaises then
            (.ok 1, t ++ [Event.toolCheck, Event.procLaunch (indexCmd fi fo)])
          else
            (.ok 0, t ++ [Event.toolCheck, Event.procLaunch (indexCmd fi fo)])
        else
          (.error .toolNotFound, t ++ [Event.toolCheck])
      if validateFlag then
        match validate env fi (ipath.getD "") ignore with
        | (.error e, t) => (.error e, t)
        | (.ok v, t) => if v = 1 then (.ok 1, t) else run t
      else run []
    else
      (.error (.fileNotFound fi), [])

/-! ## Theorems -/

/-- C1: `convert_bam_to_sam` passes the extension pair `('.sam', '.bam')`
to `_prepare_paths` (source line 199), so for an input named `reads.bam`
with no explicit output name the resolved output is
`/data/reads.bam.bam` — `.bam` appended — and not `/data/reads.sam` as
the docstring ("extension '.bam' (if any) replaced with '.sam'") and the
spec state.  The last two conjuncts contrast the name the passed pair
produces with the name the documented pair `('.bam', '.sam')` would
produce. -/
theorem c1_bam_to_sam_extension_pair :
    convert_bam_to_sam ⟨["/data/reads.bam"], true, false, ""⟩ "reads.bam"
        (some "/data") none none false none =
      (.ok 0, [Event.toolCheck,
               Event.procLaunch "samtools view -h /data/reads.bam > /data/reads.bam.bam"]) ∧
    defaultOName "reads.bam" ".sam" ".bam" = "reads.bam.bam" ∧
    defaultOName "reads.bam" ".bam" ".sam" = "reads.sam" := by
  refine ⟨by decide, by decide, by decide⟩

/-- C10: only the first `ERROR:<token>` occurrence of a line is tested
against the ignore list: the one-line report
`ERROR:MATE_NOT_FOUND ERROR:SOMETHING_ELSE` is classified pass under the
default ignore list even though `SOMETHING_ELSE` alone fails, because
the first match of the line is the ignored `MATE_NOT_FOUND`. -/
theorem c10_first_error_token_only :
    is_valid (some "ERROR:MATE_NOT_FOUND ERROR:SOMETHING_ELSE") (some defaultIgnore) = true ∧
    is_valid (some "ERROR:SOMETHING_ELSE") (some defaultIgnore) = false ∧
    findErrorToken ("ERROR:MATE_NOT_FOUND ERROR:SOMETHING_ELSE").data =
      some "MATE_NOT_FOUND".data ∧
    lineHasBadToken defaultIgnore ("ERROR:MATE_NOT_FOUND ERROR:SOMETHING_ELSE").data = true := by
  refine ⟨by decide, by decide, by decide, by decide⟩

/-- C3 (counterexample): with `ignore=None` the sentinel list is
`['xxx']`, which does match the word token `xxx`, so the report
`ERROR:xxx` is classified pass — the claim says every word token causes
a fail. -/
theorem c3_counterexample_sentinel_matches_xxx :
    is_valid (some "ERROR:xxx") none = true := by decide

/-- C3 (amended): with `ignore=None` the sentinel list is `['xxx']`, so
every detected first `ERROR:<token>` occurrence whose token differs from
`xxx` causes a fail verdict. -/
theorem c3_none_ignore_rejects_nonsentinel (res line T : String)
    (hT : T ≠ "xxx") (hmem : line ∈ splitlines res)
    (hfind : findErrorToken line.data = some T.data) :
    is_valid (some res) none = false := by
  simp only [is_valid]
  by_cases hc : containsSub exceptionMarker.data res.data = true
  · simp [hc]
  · have hc' : containsSub exceptionMarker.data res.data = false := by
      simpa using hc
    have hline : lineCheck ["xxx"] line = false := by
      have hTm : String.mk T.data = T := rfl
      simp only [lineCheck, hfind, hTm]
      simpa using hT
    simp only [hc', Bool.false_eq_true, if_false]
    cases hall : (splitlines res).all (lineCheck ["xxx"]) with
    | false => rfl
    | true =>
      rw [List.all_eq_true] at hall
      have := hall line hmem
      rw [hline] at this
      exact Bool.noConfusion this

/-- C3 (witness): the non-sentinel token `SOMETHING_ELSE` fails under
`ignore=None`. -/
theorem c3_witness : is_valid (some "ERROR:SOMETHING_ELSE") none = false :=
  c3_none_ignore_rejects_nonsentinel "ERROR:SOMETHING_ELSE" "ERROR:SOMETHING_ELSE"
    "SOMETHING_ELSE" (by decide) (by decide) (by decide)

/-- C2 (counterexample): when the validator subprocess raises, `validate`
returns 1, not 0 — refuting the claim that the three operations other
than `create_bai_from_bam` always return 0 regardless of subprocess
exceptions. -/
theorem c2_counterexample_validate_raises :
    (validate ⟨["/d/g.bam"], true, true, ""⟩ "g.bam" "/d" (some defaultIgnore)).1 = .ok 1 ∧
    (validate ⟨["/d/g.bam"], true, true, ""⟩ "g.bam" "/d" (some defaultIgnore)).1 ≠ .ok 0 := by
  refine ⟨by decide, by decide⟩

/-- C2 (amended): when the subprocess invocation inside the `try` block
raises, `create_bai_from_bam` *and* `validate` return 1, while the two
conversions (`convert_sam_to_sorted_bam`, `convert_bam_to_sam`) swallow
the exception and return 0. -/
theorem c2_status_under_subprocess_exception (env : Env) (ifile ip : String)
    (hr : env.subprocRaises = true)
    (hip : startsWithSlash ip = true)
    (hfs : env.fs.contains (osPathJoin ip ifile) = true)
    (hsam : env.samtoolsAvailable = true) :
    (create_bai_from_bam env ifile (some ip) none none false none).1 = .ok 1 ∧
    (validate env ifile ip (some defaultIgnore)).1 = .ok 1 ∧
    (convert_sam_to_sorted_bam env ifile (some ip) none none false none).1 = .ok 0 ∧
    (convert_bam_to_sam env ifile (some ip) none none false none).1 = .ok 0 := by
  have hfs' : osPathJoin ip ifile ∈ env.fs := by simpa using hfs
  refine ⟨?_, ?_, ?_, ?_⟩ <;>
    simp [create_bai_from_bam, validate, convert_sam_to_sorted_bam, convert_bam_to_sam,
          prepare_paths, hr, hip, hfs', hsam]

/-- C2 (witness): the amended statement at a concrete environment whose
subprocess raises. -/
theorem c2_witness :
    (create_bai_from_bam ⟨["/d/f.bam"], true, true, ""⟩ "f.bam" (some "/d") none none
        false none).1 = .ok 1 ∧
    (validate ⟨["/d/f.bam"], true, true, ""⟩ "f.bam" "/d" (some defaultIgnore)).1 = .ok 1 ∧
    (convert_sam_to_sorted_bam ⟨["/d/f.bam"], true, true, ""⟩ "f.bam" (some "/d") none none
        false none).1 = .ok 0 ∧
    (convert_bam_to_sam ⟨["/d/f.bam"], true, true, ""⟩ "f.bam" (some "/d") none none
        false none).1 = .ok 0 :=
  c2_status_under_subprocess_exception ⟨["/d/f.bam"], true, true, ""⟩ "f.bam" "/d"
    rfl (by decide) (by decide) rfl

/-- C9: whenever path preparation succeeds but the resolved input path
does not exist, each conversion/indexing operation fails with
`fileNotFound` and its event trace is empty: neither the tool-availability
check nor any process launch happens. -/
theorem c9_missing_input_no_process (env : Env) (ifile : String)
    (ipath ofile opath : Option String) (vf : Bool) (ign : Option (List String)) :
    (∀ fi fo op2,
        prepare_paths ifile ipath ofile opath ".sam" ".bam" = .ok (fi, fo, op2) →
        env.fs.contains fi = false →
        convert_sam_to_sorted_bam env ifile ipath ofile opath vf ign =
            (.error (.fileNotFound fi), []) ∧
          convert_bam_to_sam env ifile ipath ofile opath vf ign =
            (.error (.fileNotFound fi), [])) ∧
    (∀ fi fo op2,
        prepare_paths ifile ipath ofile opath ".bam" ".bai" = .ok (fi, fo, op2) →
        env.fs.contains fi = false →
        create_bai_from_bam env ifile ipath ofile opath vf ign =
          (.error (.fileNotFound fi), [])) := by
  constructor
  · intro fi fo op2 hprep hfs
    have hfs' : fi ∉ env.fs := by simpa using hfs
    constructor <;> simp [convert_sam_to_sorted_bam, convert_bam_to_sam, hprep, hfs']
  · intro fi fo op2 hprep hfs
    have hfs' : fi ∉ env.fs := by simpa using hfs
    simp [create_bai_from_bam, hprep, hfs']

/-- C9 (witness): concrete missing-input calls of the three operations,
each yielding `fileNotFound` and an empty event trace. -/
theorem c9_witness :
    convert_sam_to_sorted_bam ⟨[], true, false, ""⟩ "a.sam" (some "/d") none none false none =
        (.error (.fileNotFound "/d/a.sam"), []) ∧
    convert_bam_to_sam ⟨[], true, false, ""⟩ "a.sam" (some "/d") none none false none =
        (.error (.fileNotFound "/d/a.sam"), []) ∧
    create_bai_from_bam ⟨[], true, false, ""⟩ "a.sam" (some "/d") none none false none =
        (.error (.fileNotFound "/d/a.sam"), []) := by
  have h := c9_missing_input_no_process ⟨[], true, false, ""⟩ "a.sam" (some "/d")
    none none false none
  exact ⟨(h.1 "/d/a.sam" "/d/a.bam" "/d" (by decide) (by decide)).1,
         (h.1 "/d/a.sam" "/d/a.bam" "/d" (by decide) (by decide)).2,
         h.2 "/d/a.sam" "/d/a.sam.bai" "/d" (by decide) (by decide)⟩

lemma extract_ok_lineOk (logger : Option Unit) (stats : String)
    (h : resultIsError (extractAlignmentStatsInfo logger stats) = false) :
    lineOk (splitlines stats) 0 = true ∧ lineOk (splitlines stats) 4 = true ∧
      lineOk (splitlines stats) 8 = true ∧ lineOk (splitlines stats) 10 = true := by
  simp only [extractAlignmentStatsInfo] at h
  cases hg0 : getMatched (splitlines stats) 0 with
  | error e => simp [hg0, resultIsError] at h
  | ok p0 =>
    obtain ⟨a0, b0⟩ := p0
    simp only [hg0] at h
    cases hg4 : getMatched (splitlines stats) 4 with
    | error e => simp [hg4, resultIsError] at h
    | ok p4 =>
      obtain ⟨a4, b4⟩ := p4
      simp only [hg4] at h
      cases hrc : rateCalc logger (a0 + b0) a4 with
      | error e => simp [hrc, resultIsError] at h
      | ok pr =>
        obtain ⟨rate, logs⟩ := pr
        simp only [hrc] at h
        cases hg10 : getMatched (splitlines stats) 10 with
        | error e => simp [hg10, resultIsError] at h
        | ok p10 =>
          obtain ⟨a10, b10⟩ := p10
          simp only [hg10] at h
          cases hg8 : getMatched (splitlines stats) 8 with
          | error e => simp [hg8, resultIsError] at h
          | ok p8 =>
            exact ⟨by simp [lineOk, hg0], by simp [lineOk, hg4],
                   by simp [lineOk, hg8], by simp [lineOk, hg10]⟩

/-- C8: when any of the four expected lines (indices 0, 4, 8, 10) is
missing or does not begin with the `A + B` pattern, the statistics
parser fails with an error instead of returning a stats record. -/
theorem c8_malformed_line_errors (logger : Option Unit) (stats : String)
    (h : lineOk (splitlines stats) 0 = false ∨ lineOk (splitlines stats) 4 = false ∨
         lineOk (splitlines stats) 8 = false ∨ lineOk (splitlines stats) 10 = false) :
    resultIsError (extractAlignmentStatsInfo logger stats) = true := by
  by_cases hres : resultIsError (extractAlignmentStatsInfo logger stats) = true
  · exact hres
  · have hok := extract_ok_lineOk logger stats (by simpa using hres)
    rcases h with h | h | h | h <;> simp [h] at hok

/-- C8 (witness): a report whose line 0 does not match the pattern makes
the parser fail. -/
theorem c8_witness : resultIsError (extractAlignmentStatsInfo none "bogus") = true :=
  c8_malformed_line_errors none "bogus" (Or.inl (by decide))

/-- The zero-total flagstat report used to settle C4: every counted line
is `0 + 0`. -/
def c4Report : String := "0 + 0\nx\nx\nx\n0 + 0\nx\nx\nx\n0 + 0\nx\n0 + 0"

/-- C4 (counterexample): on a report whose line 0 is `0 + 0`, the parser
logs at *error* severity (the source calls `self.logger.error`), not at
warning severity; and with the constructor default `logger=None` the log
call itself raises (`AttributeError`) instead of returning. -/
theorem c4_counterexample_error_not_warning :
    loggedSeverities (extractAlignmentStatsInfo (some ()) c4Report) = [Severity.error] ∧
    Severity.error ≠ Severity.warning ∧
    extractAlignmentStatsInfo none c4Report = .error .attributeError := by
  refine ⟨by decide, by decide, by decide⟩

/-- C4 (amended): for every report whose line 0 matches `0 + 0` (with
lines 4, 8, 10 well-formed), the parser returns
`alignment_rate = 0` without raising, logging one record at error
severity, *provided a logger is attached*; with `logger=None` (the
constructor default) it raises `AttributeError` instead. -/
theorem c4_zero_total_rate (stats : String) (a4 b4 a8 b8 a10 b10 : Nat)
    (hg0 : getMatched (splitlines stats) 0 = .ok (0, 0))
    (hg4 : getMatched (splitlines stats) 4 = .ok (a4, b4))
    (hg8 : getMatched (splitlines stats) 8 = .ok (a8, b8))
    (hg10 : getMatched (splitlines stats) 10 = .ok (a10, b10)) :
    extractAlignmentStatsInfo (some ()) stats =
        .ok ({ alignment_rate := 0, multiple_alignments := 0, properly_paired := a8,
               singletons := a10, total_reads := 0,
               unmapped_reads := -(a4 : Int), mapped_reads := a4 },
             [⟨Severity.error, zeroRateMsg⟩]) ∧
      extractAlignmentStatsInfo none stats = .error .attributeError := by
  constructor <;> simp [extractAlignmentStatsInfo, hg0, hg4, hg8, hg10, rateCalc]

/-- C4 (witness): the amended statement at the concrete zero report. -/
theorem c4_witness :
    extractAlignmentStatsInfo (some ()) c4Report =
        .ok ({ alignment_rate := 0, multiple_alignments := 0, properly_paired := 0,
               singletons := 0, total_reads := 0, unmapped_reads := 0, mapped_reads := 0 },
             [⟨Severity.error, zeroRateMsg⟩]) ∧
      extractAlignmentStatsInfo none c4Report = .error .attributeError := by
  have h := c4_zero_total_rate c4Report 0 0 0 0 0 0
    (by decide) (by decide) (by decide) (by decide)
  simpa using h

/-- C5: for every flagstat report whose lines 0, 4, 8 and 10 match the
`A + B` pattern with a non-zero total, the parser returns
totalReads = A0+B0, mappedReads = A4, properlyPaired = A8,
singletons = A10, unmappedReads = totalReads − mappedReads, and an
alignment rate of `mapped/total*100` clamped to 100; no log record is
emitted. -/
theorem c5_stats_extraction (logger : Option Unit) (stats : String)
    (a0 b0 a4 b4 a8 b8 a10 b10 : Nat)
    (hg0 : getMatched (splitlines stats) 0 = .ok (a0, b0))
    (hg4 : getMatched (splitlines stats) 4 = .ok (a4, b4))
    (hg8 : getMatched (splitlines stats) 8 = .ok (a8, b8))
    (hg10 : getMatched (splitlines stats) 10 = .ok (a10, b10))
    (htot : a0 + b0 ≠ 0) :
    extractAlignmentStatsInfo logger stats =
      .ok ({ alignment_rate :=
               if 100 < (a4 : ℚ) / ((a0 + b0 : Nat) : ℚ) * 100 then 100
               else (a4 : ℚ) / ((a0 + b0 : Nat) : ℚ) * 100
             multiple_alignments := 0
             properly_paired := a8
             singletons := a10
             total_reads := a0 + b0
             unmapped_reads := ((a0 + b0 : Nat) : Int) - (a4 : Int)
             mapped_reads := a4 }, []) := by
  simp [extractAlignmentStatsInfo, hg0, hg4, hg8, hg10, rateCalc, htot]

/-- The spec's example flagstat report: `10 + 2` at line 0, `8 + 0` at
line 4, `6 + 0` at line 8, `1 + 0` at line 10, fillers elsewhere. -/
def c5Report : String := "10 + 2\nx\nx\nx\n8 + 0\nx\nx\nx\n6 + 0\nx\n1 + 0"

/-- C5 (witness): the spec's example report yields totalReads = 12,
mappedReads = 8, unmappedReads = 4, alignment rate 200/3 (≈ 66.67),
properlyPaired = 6 and singletons = 1. -/
theorem c5_witness :
    extractAlignmentStatsInfo (some ()) c5Report =
      .ok ({ alignment_rate := 200 / 3, multiple_alignments := 0, properly_paired := 6,
             singletons := 1, total_reads := 12, unmapped_reads := 4, mapped_reads := 8 },
           []) := by
  have h := c5_stats_extraction (some ()) c5Report 10 2 8 0 6 0 1 0
    (by decide) (by decide) (by decide) (by decide) (by decide)
  rw [h]
  norm_num

lemma lineCheck_eq_false_iff (ig : List String) (line : String) :
    lineCheck ig line = false ↔
      ∃ tok, findErrorToken line.data = some tok ∧ ig.contains (String.mk tok) = false := by
  cases hf : findErrorToken line.data <;> simp [lineCheck, hf]

/-- C6 (counterexample): the claim's "fail iff some line contains
`ERROR:` followed by a non-ignored word token" is refuted by a line
where an ignored first token precedes a non-ignored one: the report
does contain a non-ignored `ERROR:<token>` occurrence, yet the verdict
is pass. -/
theorem c6_counterexample_later_token_ignored :
    lineHasBadToken defaultIgnore ("ERROR:MATE_NOT_FOUND ERROR:BAD_CIGAR").data = true ∧
    is_valid (some "ERROR:MATE_NOT_FOUND ERROR:BAD_CIGAR") (some defaultIgnore) = true := by
  refine ⟨by decide, by decide⟩

/-- C6 (amended): an absent or empty report passes for every ignore
list; a report containing the generic failure marker fails for every
ignore list; otherwise the verdict is fail iff some line's *first*
`ERROR:<token>` occurrence has a token outside the ignore list; with the
default ignore list, `ERROR:MATE_NOT_FOUND` passes and
`ERROR:SOMETHING_ELSE` fails. -/
theorem c6_classifier_semantics :
    (∀ ign, is_valid none ign = true) ∧
    (∀ ign, is_valid (some "") ign = true) ∧
    (∀ res ign, containsSub exceptionMarker.data res.data = true →
        is_valid (some res) ign = false) ∧
    (∀ res ign, containsSub exceptionMarker.data res.data = false →
        (is_valid (some res) (some ign) = false ↔
          ∃ line ∈ splitlines res, ∃ tok, findErrorToken line.data = some tok ∧
            ign.contains (String.mk tok) = false)) ∧
    is_valid (some "ERROR:MATE_NOT_FOUND") (some defaultIgnore) = true ∧
    is_valid (some "ERROR:SOMETHING_ELSE") (some defaultIgnore) = false := by
  refine ⟨fun ign => rfl, fun ign => ?_, fun res ign h => ?_, fun res ign h => ?_,
          by decide, by decide⟩
  · cases ign <;> rfl
  · cases ign <;> simp [is_valid, h]
  · simp only [is_valid, h, Bool.false_eq_true, if_false]
    rw [show ((splitlines res).all (lineCheck ign) = false) ↔
          ∃ line ∈ splitlines res, lineCheck ign line = false by
        simp]
    constructor
    · rintro ⟨line, hmem, hline⟩
      exact ⟨line, hmem, (lineCheck_eq_false_iff ign line).mp hline⟩
    · rintro ⟨line, hmem, tok, hfind, hcon⟩
      exact ⟨line, hmem, (lineCheck_eq_false_iff ign line).mpr ⟨tok, hfind, hcon⟩⟩

/-- C6 (witness): the generic-failure-marker clause at a concrete
report, with `ignore=None`. -/
theorem c6_witness : is_valid (some "Exception occurred") none = false :=
  c6_classifier_semantics.2.2.1 "Exception occurred" none (by decide)

lemma pyLast4_of_suffix (ifile iext : String) (pre : List Char)
    (hlen : iext.data.length = 4) (h : ifile.data = pre ++ iext.data) :
    pyLast4 ifile = iext := by
  unfold pyLast4
  rw [h, List.length_append, hlen, Nat.add_sub_cancel, List.drop_left]

lemma pyDropLast4_of_suffix (ifile iext : String) (pre : List Char)
    (hlen : iext.data.length = 4) (h : ifile.data = pre ++ iext.data) :
    pyDropLast4 ifile = String.mk pre := by
  unfold pyDropLast4
  rw [h, List.length_append, hlen, Nat.add_sub_cancel, List.take_left]

lemma suffix_of_pyLast4_eq (ifile iext : String) (h : pyLast4 ifile = iext) :
    ∃ pre, ifile.data = pre ++ iext.data := by
  refine ⟨ifile.data.take (ifile.data.length - 4), ?_⟩
  have hd : ifile.data.drop (ifile.data.length - 4) = iext.data := congrArg String.data h
  rw [← hd, List.take_append_drop]

lemma no_suffix_of_pyLast4_ne (ifile iext : String) (hlen : iext.data.length = 4)
    (h : pyLast4 ifile ≠ iext) :
    ¬ ∃ pre, ifile.data = pre ++ iext.data := by
  rintro ⟨pre, hpre⟩
  exact h (pyLast4_of_suffix ifile iext pre hlen hpre)

/-- C7: with `outputName` absent and a four-character input extension
(every call site uses one): when the input name ends with the input
extension, the default output name is the input name with exactly that
trailing extension replaced by the output extension; otherwise it is the
input name with the output extension appended. -/
theorem c7_path_resolver_default (ifile ipath : String) (opath : Option String)
    (iext oext : String) (hlen : iext.data.length = 4)
    (hop : ∀ p, opath = some p → startsWithSlash p = true) :
    (∀ pre : List Char, ifile.data = pre ++ iext.data →
        prepare_paths ifile (some ipath) none opath iext oext =
          .ok (osPathJoin ipath ifile,
               osPathJoin (opath.getD ipath) (String.mk pre ++ oext), opath.getD ipath)) ∧
    ((¬ ∃ pre : List Char, ifile.data = pre ++ iext.data) →
        prepare_paths ifile (some ipath) none opath iext oext =
          .ok (osPathJoin ipath ifile,
               osPathJoin (opath.getD ipath) (ifile ++ oext), opath.getD ipath)) := by
  constructor
  · intro pre hpre
    have h4 : pyLast4 ifile = iext := pyLast4_of_suffix ifile iext pre hlen hpre
    have hd : pyDropLast4 ifile = String.mk pre := pyDropLast4_of_suffix ifile iext pre hlen hpre
    cases opath with
    | none => simp [prepare_paths, defaultOName, h4, hd]
    | some op =>
      have hs := hop op rfl
      simp [prepare_paths, defaultOName, h4, hd, hs]
  · intro hns
    have h4 : pyLast4 ifile ≠ iext := fun hEq => hns (suffix_of_pyLast4_eq ifile iext hEq)
    cases opath with
    | none => simp [prepare_paths, defaultOName, h4]
    | some op =>
      have hs := hop op rfl
      simp [prepare_paths, defaultOName, h4, hs]

/-- C7 (witness): concrete resolutions — `reads.sam` with pair
`('.sam', '.bam')` becomes `reads.bam` (extension replaced), and
`data.txt` becomes `data.txt.bam` (extension appended). -/
theorem c7_witness :
    prepare_paths "reads.sam" (some "/in") none none ".sam" ".bam" =
        .ok ("/in/reads.sam", "/in/reads.bam", "/in") ∧
    prepare_paths "data.txt" (some "/in") none none ".sam" ".bam" =
        .ok ("/in/data.txt", "/in/data.txt.bam", "/in") := by
  constructor
  · have h := (c7_path_resolver_default "reads.sam" "/in" none ".sam" ".bam" (by decide)
      (fun p hp => by cases hp)).1 "reads".data (by decide)
    rw [h]; decide
  · have h := (c7_path_resolver_default "data.txt" "/in" none ".sam" ".bam" (by decide)
      (fun p hp => by cases hp)).2
      (no_suffix_of_pyLast4_ne "data.txt" ".sam" (by decide) (by decide))
    rw [h]; decide

end SamTools
